import Mathlib

/-!
Shallow embedding of the production-readiness checker (a bash script).

The script runs an ordered battery of independent checks against the
local environment, prints one colourised line per result, accumulates
three counters `PASSED` / `FAILED` / `WARNINGS`, prints a summary and a
banner, and exits 0 iff `FAILED` is 0.

The environment the script observes (installed tools, file existence,
file contents, outcomes of external commands) is captured in the `Env`
record; every check is translated as a function `Env → List Result`
mirroring the corresponding lines of the script.  `grep -q PAT FILE`
is modelled as textual containment of the pattern in some line of the
file (the script's grep patterns are literal strings except for
`try_files.*index.html`, whose `.*` is modelled explicitly; the `.` in
`TLSv1.2` is modelled as the literal dot, which is immaterial to every
claim considered here).

Two execution models are provided:

* the intended straight-line model (`runResults`, `runTally`,
  `intendedExitCode`) in which every check's results are emitted and the
  exit code is taken from the final `FAILED` counter, exactly as the
  script's own summary/exit lines (lines 261-289) prescribe; and
* the faithful model (`runScript`, `scriptExitCode`) of the script under
  its `set -e` (line 6): in bash, `((X++))` has exit status 1 when the
  pre-increment value of `X` is 0, so the first `check_pass` /
  `check_fail` / `check_warn` call — whose counter is still 0 — returns
  a failing status right after printing its line and `set -e` terminates
  the whole script with exit status 1.
-/

namespace ReadyCheck

inductive Tag
  | pass
  | fail
  | warn
deriving DecidableEq, Repr

structure Result where
  tag : Tag
  msg : String
deriving DecidableEq, Repr

/-- The observations the script can make of its surroundings: each field
records the outcome of one kind of probe (command presence, directory or
file existence, file contents as a list of lines, external command
success, captured command output). -/
structure Env where
  dockerInstalled : Bool
  dockerVersion : String
  daemonUp : Bool
  fileExists : String → Bool
  caDir : Bool
  caFullchain : Bool
  caPrivkey : Bool
  opensslInstalled : Bool
  expiry : String
  localDir : Bool
  localFullchain : Bool
  localPrivkey : Bool
  nginxTestOk : Bool
  nginxConf : List String
  nodeModules : Bool
  buildOk : Bool
  distAfterBuild : Bool
  distSize : String
  distIndexHtml : Bool
  dockerBuildOk : Bool
  imageSize : String
  rmiOk : Bool
  imagePre : Bool
  dockerfileLines : List String
  viteConfigLines : List String
  digInstalled : Bool
  dnsResult : String
  portInUse : Nat → Bool

/-- The script's `CERT_PATH`. -/
def certPath : String := "/etc/letsencrypt/live/vladplk.mysmarttech.fr"

/-- The script's `LOCAL_CERT_PATH`. -/
def localCertPath : String := "certs"

/-- Does `pat` occur at the start of `s`? -/
def startsList (pat : List Char) : List Char → Bool
  | [] => pat.isEmpty
  | b :: bs =>
    match pat with
    | [] => true
    | a :: as => a == b && startsList as bs

/-- Does `pat` occur (contiguously) anywhere in `s`? -/
def occursList (pat : List Char) : List Char → Bool
  | [] => pat.isEmpty
  | c :: rest => startsList pat (c :: rest) || occursList pat rest

/-- Literal containment of `pat` in `line`. -/
def containsPat (pat line : String) : Bool :=
  occursList pat.data line.data

/-- Model of `grep -q pat file` for a literal pattern: some line contains `pat`.
A missing file is modelled as the empty line list (grep then fails, as
it does on a missing file). -/
def grepQ (pat : String) (ls : List String) : Bool :=
  ls.any (fun l => containsPat pat l)

/-- Does `s` contain an occurrence of `a` followed, at or after its end,
by an occurrence of `b` (the regex `a.*b` within one line)? -/
def occursAfter (a b : List Char) : List Char → Bool
  | [] => a.isEmpty && b.isEmpty
  | c :: rest =>
    (startsList a (c :: rest) && occursList b ((c :: rest).drop a.length))
      || occursAfter a b rest

/-- Model of `grep -q "a.*b" file`: some line matches `a.*b`. -/
def grepTwo (a b : String) (ls : List String) : Bool :=
  ls.any (fun l => occursAfter a.data b.data l.data)

/-! ## The check battery, check by check (script lines 50-259) -/

/-- Script lines 52-56: `command -v docker`. -/
def dockerInstalledCheck (e : Env) : List Result :=
  if e.dockerInstalled then
    [⟨.pass, "Docker is installed (" ++ e.dockerVersion ++ ")"⟩]
  else
    [⟨.fail, "Docker is not installed"⟩]

/-- Script lines 58-62: `docker info`. -/
def daemonCheck (e : Env) : List Result :=
  if e.daemonUp then [⟨.pass, "Docker daemon is running"⟩]
  else [⟨.fail, "Docker daemon is not running"⟩]

/-- Script lines 66-72: the `files` array. -/
def requiredFiles : List String :=
  ["Dockerfile", "nginx.conf", "package.json", "vite.config.js", ".dockerignore"]

/-- Script lines 74-80: one iteration of the required-file loop. -/
def fileCheck (f : String) (e : Env) : List Result :=
  if e.fileExists f then [⟨.pass, f ++ " exists"⟩]
  else [⟨.fail, f ++ " is missing"⟩]

/-- Script lines 87-110: the SSL-certificate check.  The CA branch is
tried first; the local fallback is only reached through the `elif`. -/
def sslCheck (e : Env) : List Result :=
  if e.caDir then
    if e.caFullchain && e.caPrivkey then
      ⟨.pass, "SSL certificates found in " ++ certPath⟩ ::
        (if e.opensslInstalled && !(e.expiry == "") then
          [⟨.pass, "Certificate expires: " ++ e.expiry⟩]
        else [])
    else
      [⟨.fail, "SSL certificate files missing in " ++ certPath⟩]
  else if e.localDir then
    if e.localFullchain && e.localPrivkey then
      [⟨.pass, "SSL certificates found in " ++ localCertPath ++ "/"⟩]
    else
      [⟨.fail, "SSL certificate files missing in " ++ localCertPath ++ "/"⟩]
  else
    [⟨.fail, "No SSL certificates found"⟩]

/-- The remediation line echoed at script line 109. -/
def certbotHint : String :=
  "Run: sudo certbot certonly --standalone -d vladplk.mysmarttech.fr"

/-- The extra echo of script line 109, printed exactly when neither
certificate directory exists. -/
def sslHint (e : Env) : Option String :=
  if !e.caDir && !e.localDir then some certbotHint else none

/-- Script lines 114-119: `nginx -t` inside an ephemeral container. -/
def nginxValidCheck (e : Env) : List Result :=
  if e.nginxTestOk then [⟨.pass, "nginx configuration is valid"⟩]
  else [⟨.fail, "nginx configuration has errors"⟩]

/-- Script lines 122-124: `grep -q "proxy_pass" nginx.conf` — note the
missing `else`: no result at all when the pattern is absent. -/
def proxyPassCheck (e : Env) : List Result :=
  if grepQ "proxy_pass" e.nginxConf then
    [⟨.warn, "nginx.conf contains proxy_pass (should serve static files)"⟩]
  else []

/-- Script lines 126-130: `grep -q "try_files.*index.html" nginx.conf`. -/
def spaFallbackCheck (e : Env) : List Result :=
  if grepTwo "try_files" "index.html" e.nginxConf then
    [⟨.pass, "SPA fallback routing configured"⟩]
  else [⟨.warn, "SPA fallback routing may not be configured"⟩]

/-- Script lines 134-138. -/
def nodeModulesCheck (e : Env) : List Result :=
  if e.nodeModules then [⟨.pass, "node_modules exists"⟩]
  else [⟨.warn, "node_modules not found (run: npm install)"⟩]

/-- Script lines 140-157: `npm run build`, then — only when the `dist`
directory exists after the build — its size and the entry HTML file.
When `dist` is absent those two inner checks are skipped entirely. -/
def npmBuildCheck (e : Env) : List Result :=
  if e.buildOk then
    ⟨.pass, "Production build successful"⟩ ::
      (if e.distAfterBuild then
        ⟨.pass, "Build output size: " ++ e.distSize⟩ ::
          (if e.distIndexHtml then [⟨.pass, "index.html generated"⟩]
           else [⟨.fail, "index.html not found in dist/"⟩])
      else [])
  else [⟨.fail, "Production build failed"⟩]

/-- Script lines 161-172: `docker build -t portfolio-test:check .`. -/
def dockerBuildCheck (e : Env) : List Result :=
  if e.dockerBuildOk then
    [⟨.pass, "Docker image builds successfully"⟩,
     ⟨.pass, "Docker image size: " ++ e.imageSize⟩]
  else [⟨.fail, "Docker build failed"⟩]

/-- Whether the throwaway image `portfolio-test:check` exists once the
container-build check has completed: line 169 (`docker rmi ... || true`)
runs only in the success branch, and a failed build leaves whatever tag
existed before untouched. -/
def imageAfterRun (e : Env) : Bool :=
  if e.dockerBuildOk then !e.rmiOk else e.imagePre

/-- Script lines 178-183: the `security_headers` array. -/
def securityHeaders : List String :=
  ["Strict-Transport-Security", "X-Frame-Options",
   "X-Content-Type-Options", "X-XSS-Protection"]

/-- Script lines 185-191: one iteration of the header loop. -/
def headerCheck (h : String) (e : Env) : List Result :=
  if grepQ h e.nginxConf then [⟨.pass, h ++ " configured"⟩]
  else [⟨.warn, h ++ " not configured"⟩]

/-- Script lines 194-198. -/
def sslProtocolsCheck (e : Env) : List Result :=
  if grepQ "ssl_protocols TLSv1.2 TLSv1.3" e.nginxConf then
    [⟨.pass, "Modern SSL protocols configured"⟩]
  else [⟨.warn, "SSL protocols may not be optimally configured"⟩]

/-- Script lines 201-205. -/
def nonRootUserCheck (e : Env) : List Result :=
  if grepQ "USER nginx" e.dockerfileLines then
    [⟨.pass, "Container runs as non-root user"⟩]
  else [⟨.warn, "Container may be running as root"⟩]

/-- Script lines 211-215. -/
def gzipCheck (e : Env) : List Result :=
  if grepQ "gzip on" e.nginxConf then [⟨.pass, "Gzip compression enabled"⟩]
  else [⟨.warn, "Gzip compression not configured"⟩]

/-- Script lines 218-222. -/
def http2Check (e : Env) : List Result :=
  if grepQ "http2" e.nginxConf then [⟨.pass, "HTTP/2 enabled"⟩]
  else [⟨.warn, "HTTP/2 not enabled"⟩]

/-- Script lines 225-229. -/
def expiresCheck (e : Env) : List Result :=
  if grepQ "expires" e.nginxConf then
    [⟨.pass, "Static asset caching configured"⟩]
  else [⟨.warn, "Asset caching not configured"⟩]

/-- Script lines 232-236. -/
def minifyCheck (e : Env) : List Result :=
  if grepQ "minify" e.viteConfigLines then
    [⟨.pass, "Minification configured in Vite"⟩]
  else [⟨.warn, "Minification may not be configured"⟩]

/-- Script lines 240-249. -/
def dnsCheck (e : Env) : List Result :=
  if e.digInstalled then
    if !(e.dnsResult == "") then
      [⟨.pass, "DNS resolves to: " ++ e.dnsResult⟩]
    else [⟨.warn, "DNS not configured or not resolving"⟩]
  else [⟨.warn, "dig not installed, skipping DNS check"⟩]

/-- Script lines 253-259: one iteration of the port loop. -/
def portCheck (p : Nat) (e : Env) : List Result :=
  if e.portInUse p then
    [⟨.warn, "Port " ++ toString p ++ " is already in use"⟩]
  else [⟨.pass, "Port " ++ toString p ++ " is available"⟩]

/-- The whole battery, in script order, at the granularity of the
script's individual sub-checks (the two loops are unrolled over their
fixed element lists). -/
def checkBattery : List (Env → List Result) :=
  [dockerInstalledCheck, daemonCheck,
   fileCheck "Dockerfile", fileCheck "nginx.conf", fileCheck "package.json",
   fileCheck "vite.config.js", fileCheck ".dockerignore",
   sslCheck,
   nginxValidCheck, proxyPassCheck, spaFallbackCheck,
   nodeModulesCheck, npmBuildCheck,
   dockerBuildCheck,
   headerCheck "Strict-Transport-Security", headerCheck "X-Frame-Options",
   headerCheck "X-Content-Type-Options", headerCheck "X-XSS-Protection",
   sslProtocolsCheck, nonRootUserCheck,
   gzipCheck, http2Check, expiresCheck, minifyCheck,
   dnsCheck,
   portCheck 80, portCheck 443]

/-- All result lines of one run, in print order (intended model). -/
def runResults (e : Env) : List Result :=
  checkBattery.flatMap (fun c => c e)

/-- The required-file loop of script lines 74-80 as a whole section. -/
def filesSection (e : Env) : List Result :=
  requiredFiles.flatMap (fun f => fileCheck f e)

/-- The three counters `PASSED` / `FAILED` / `WARNINGS`. -/
structure Tally where
  passed : Nat
  failed : Nat
  warnings : Nat
deriving DecidableEq, Repr

def countTag (t : Tag) (rs : List Result) : Nat :=
  (rs.filter (fun r => r.tag == t)).length

def tallyOf (rs : List Result) : Tally :=
  ⟨countTag .pass rs, countTag .fail rs, countTag .warn rs⟩

/-- The final tally of a run (intended model). -/
def runTally (e : Env) : Tally :=
  tallyOf (runResults e)

/-- Script line 270: the closing banner is keyed only on `FAILED`. -/
def readyBanner (e : Env) : Bool :=
  (runTally e).failed == 0

/-- Script lines 270-289 (intended model): `exit 0` iff `FAILED` is 0. -/
def intendedExitCode (e : Env) : Nat :=
  if (runTally e).failed = 0 then 0 else 1

/-! ## The faithful model under `set -e` -/

def bump (t : Tally) : Tag → Tally
  | .pass => { t with passed := t.passed + 1 }
  | .fail => { t with failed := t.failed + 1 }
  | .warn => { t with warnings := t.warnings + 1 }

def counterVal (t : Tally) : Tag → Nat
  | .pass => t.passed
  | .fail => t.failed
  | .warn => t.warnings

structure ScriptState where
  tally : Tally
  printed : List Result
  aborted : Bool
deriving DecidableEq, Repr

/-- One `check_pass` / `check_fail` / `check_warn` call under `set -e`
(script lines 6 and 24-37): the `echo` prints the line, `((X++))`
increments the counter, and when the pre-increment value of `X` was 0
the arithmetic command's exit status is 1 — the function returns that
status and `set -e` terminates the script on the spot. -/
def emitStep (s : ScriptState) (r : Result) : ScriptState :=
  if s.aborted then s
  else
    { tally := bump s.tally r.tag,
      printed := s.printed ++ [r],
      aborted := counterVal s.tally r.tag == 0 }

/-- The run under the faithful `set -e` semantics. -/
def runScript (e : Env) : ScriptState :=
  (runResults e).foldl emitStep ⟨⟨0, 0, 0⟩, [], false⟩

/-- The process exit status under the faithful semantics: 1 when
`set -e` aborted the script, otherwise the summary's verdict. -/
def scriptExitCode (e : Env) : Nat :=
  if (runScript e).aborted then 1
  else if (runScript e).tally.failed = 0 then 0 else 1

/-! ## Concrete environments used in the theorems -/

/-- A healthy environment: Docker present and running, all required
files in place, local fallback certificates, valid nginx config, clean
build and container build, free ports.  Every check in it yields Pass
or Warn, never Fail. -/
def baseEnv : Env where
  dockerInstalled := true
  dockerVersion := "27.0.0"
  daemonUp := true
  fileExists := fun _ => true
  caDir := false
  caFullchain := false
  caPrivkey := false
  opensslInstalled := false
  expiry := ""
  localDir := true
  localFullchain := true
  localPrivkey := true
  nginxTestOk := true
  nginxConf := []
  nodeModules := true
  buildOk := true
  distAfterBuild := false
  distSize := ""
  distIndexHtml := false
  dockerBuildOk := true
  imageSize := "50MB"
  rmiOk := true
  imagePre := false
  dockerfileLines := []
  viteConfigLines := []
  digInstalled := false
  dnsResult := ""
  portInUse := fun _ => false

/-- Variant of `baseEnv` with the Docker daemon unreachable. -/
def daemonDownEnv : Env :=
  { baseEnv with daemonUp := false }

/-- Variant of `baseEnv` with CA-managed certificates and a readable expiry date. -/
def caExpiryEnv : Env :=
  { baseEnv with
    caDir := true
    caFullchain := true
    caPrivkey := true
    opensslInstalled := true
    expiry := "Jan  1 12:00:00 2027 GMT" }

/-- Variant of `baseEnv` with no certificate directory at all. -/
def noCertsEnv : Env :=
  { baseEnv with
    localDir := false
    localFullchain := false
    localPrivkey := false }

/-- Variant of `baseEnv` where deleting the throwaway test image fails. -/
def rmiFailEnv : Env :=
  { baseEnv with rmiOk := false }

/-- Variant of `baseEnv` where the CA directory exists but its private key is
missing, while the local fallback directory holds both files. -/
def caMissingKeyEnv : Env :=
  { baseEnv with
    caDir := true
    caFullchain := true
    caPrivkey := false }

/-- Variant of `baseEnv` with an nginx config containing both the SPA fallback
line and a proxy_pass directive. -/
def spaConfEnv : Env :=
  { baseEnv with nginxConf :=
      ["try_files $uri $uri/ /index.html;", "proxy_pass http://frontend:3000;"] }

/-- Variant of `baseEnv` whose working directory holds exactly `Dockerfile` and
`package.json` out of the five required files. -/
def twoFilesEnv : Env :=
  { baseEnv with fileExists := fun s => s == "Dockerfile" || s == "package.json" }

/-! ## Helper lemmas -/

/-- Once `set -e` has terminated the script, no further result is
emitted: the fold is constant on aborted states. -/
theorem foldl_emitStep_of_aborted (s : ScriptState) (h : s.aborted = true) :
    ∀ l : List Result, l.foldl emitStep s = s := by
  intro l
  induction l with
  | nil => rfl
  | cons r rest ih =>
    rw [List.foldl_cons, show emitStep s r = s from by simp [emitStep, h]]
    exact ih

/-- Under the faithful `set -e` semantics every run terminates right
after the very first result line: the first counter increment goes from
0 to 1 and its `((X++))` reports a failing status. -/
theorem runScript_eq (e : Env) :
    runScript e =
      ⟨bump ⟨0, 0, 0⟩ (if e.dockerInstalled then Tag.pass else Tag.fail),
        dockerInstalledCheck e, true⟩ := by
  have hsplit : runResults e =
      dockerInstalledCheck e ++ checkBattery.tail.flatMap (fun c => c e) := rfl
  cases h : e.dockerInstalled
  · have hdc : dockerInstalledCheck e = [⟨.fail, "Docker is not installed"⟩] := by
      simp [dockerInstalledCheck, h]
    simp only [runScript]
    rw [hsplit, hdc, List.singleton_append, List.foldl_cons,
      foldl_emitStep_of_aborted
        (emitStep ⟨⟨0, 0, 0⟩, [], false⟩ ⟨.fail, "Docker is not installed"⟩) rfl]
    rfl
  · have hdc : dockerInstalledCheck e =
        [⟨.pass, "Docker is installed (" ++ e.dockerVersion ++ ")"⟩] := by
      simp [dockerInstalledCheck, h]
    simp only [runScript]
    rw [hsplit, hdc, List.singleton_append, List.foldl_cons,
      foldl_emitStep_of_aborted
        (emitStep ⟨⟨0, 0, 0⟩, [], false⟩
          ⟨.pass, "Docker is installed (" ++ e.dockerVersion ++ ")"⟩) rfl]
    rfl

/-- Each result line increments exactly one of the three counters. -/
theorem countTag_sum (rs : List Result) :
    countTag .pass rs + countTag .fail rs + countTag .warn rs = rs.length := by
  induction rs with
  | nil => rfl
  | cons r rest ih =>
    rcases r with ⟨t, m⟩
    cases t <;> simp [countTag, List.filter_cons] at ih ⊢ <;> omega

/-- The function `countTag` only looks at tags: result lists with the same tag
sequence have the same counts. -/
theorem countTag_eq_of_tags (t : Tag) (rs1 rs2 : List Result)
    (h : rs1.map Result.tag = rs2.map Result.tag) :
    countTag t rs1 = countTag t rs2 := by
  have e : ∀ rs : List Result,
      countTag t rs =
        ((rs.map Result.tag).filter (fun x => x == t)).length := by
    intro rs
    rw [List.filter_map, List.length_map]
    rfl
  rw [e rs1, e rs2, h]

/-- The tally only looks at tags. -/
theorem tallyOf_eq_of_tags (rs1 rs2 : List Result)
    (h : rs1.map Result.tag = rs2.map Result.tag) :
    tallyOf rs1 = tallyOf rs2 := by
  simp only [tallyOf, countTag_eq_of_tags _ rs1 rs2 h]

/-- The certificate check is the eighth entry of the battery. -/
theorem sslCheck_mem_battery : sslCheck ∈ checkBattery := by
  simp [checkBattery]

/-- Replacing the observed expiry string by another one that is empty
iff the original is empty does not change the certificate check's tag
sequence. -/
theorem sslCheck_tags_expiry (e : Env) (s : String)
    (hx : (s == "") = (e.expiry == "")) :
    (sslCheck { e with expiry := s }).map Result.tag =
      (sslCheck e).map Result.tag := by
  rcases e with ⟨d1, d2, d3, d4, ca, cf, cp, op, ex, ld, lf, lp, nt, nc, nm,
    bo, da, ds, dih, dbo, isz, ro, ip, dfl, vcl, dg, dnr, piu⟩
  simp only at hx
  simp only [sslCheck]
  rw [hx]
  split_ifs <;> rfl

/-! ## Claims -/

/-- Claim C1: the spec says the process exit code is 0 iff the failed
counter is 0 at the end of the run, warnings notwithstanding — and the
script's own summary/exit lines (270-289) implement exactly that verdict.
The code as written violates it: under `set -e` (line 6) the first
`((PASSED++))` from 0 returns a failing status, so on a fully healthy
environment the script prints one passing line and exits with status 1
even though `FAILED` is 0.  The intended verdict (`intendedExitCode`,
the translation of lines 270-289 alone) would be 0 there. -/
theorem c1_exit_code_despite_zero_failed :
    scriptExitCode baseEnv = 1 ∧
    (runScript baseEnv).tally.failed = 0 ∧
    (runScript baseEnv).printed.length = 1 ∧
    intendedExitCode baseEnv = 0 := by
  refine ⟨?_, ?_, ?_, ?_⟩ <;> decide

/-- Claim C3: the spec says a tool-invocation error (the Docker daemon
unreachable) is recorded as a Fail on that check only and the remaining
independent checks are still attempted.  The code violates it: with the
daemon down, the battery does contain the daemon Fail result, but under
`set -e` the run terminates right after the first printed line (the
Docker-installed Pass), so the daemon failure is never reported and no
further check is attempted. -/
theorem c3_set_e_aborts_independent_checks :
    Result.mk .fail "Docker daemon is not running" ∈ runResults daemonDownEnv ∧
    (runScript daemonDownEnv).printed =
      [⟨.pass, "Docker is installed (27.0.0)"⟩] ∧
    Result.mk .fail "Docker daemon is not running" ∉
      (runScript daemonDownEnv).printed ∧
    (runScript daemonDownEnv).aborted = true ∧
    2 ≤ (runResults daemonDownEnv).length := by
  refine ⟨?_, ?_, ?_, ?_, ?_⟩ <;> decide

/-- Claim C2: at the end of a run `passed + failed + warned` equals the
number of check results actually emitted — every emitted result
increments exactly one counter — and a conditionally skipped check
contributes nothing: when the build succeeds but the `dist` directory
is absent, the build check emits only the single build-success line, in
particular no Pass for the skipped output checks. -/
theorem c2_tally_invariant (e : Env) :
    (runTally e).passed + (runTally e).failed + (runTally e).warnings =
      (runResults e).length ∧
    (e.buildOk = true → e.distAfterBuild = false →
      npmBuildCheck e = [⟨.pass, "Production build successful"⟩]) := by
  constructor
  · exact countTag_sum (runResults e)
  · intro h1 h2
    simp [npmBuildCheck, h1, h2]

/-- Witness for C2 at `baseEnv` (build succeeds, `dist` absent). -/
theorem c2_tally_invariant_witness :
    (runTally baseEnv).passed + (runTally baseEnv).failed +
        (runTally baseEnv).warnings = (runResults baseEnv).length ∧
    npmBuildCheck baseEnv = [⟨.pass, "Production build successful"⟩] :=
  ⟨(c2_tally_invariant baseEnv).1, (c2_tally_invariant baseEnv).2 rfl rfl⟩

/-- Claim C4 as stated is false: the certificate check is one attempted
check of the battery yet emits two result lines when the CA-managed
certificates are present with a readable expiry date. -/
theorem c4_counterexample :
    ¬ ∀ c, c ∈ checkBattery → ∀ e : Env, (c e).length = 1 := by
  intro h
  have h1 := h sslCheck sslCheck_mem_battery caExpiryEnv
  have h2 : (sslCheck caExpiryEnv).length = 2 := by decide
  omega

/-- Claim C4 (amended): every attempted check emits between zero and
three result lines — the proxy_pass heuristic emits none when its
pattern is absent, the certificate and container-build checks up to
two, the build check up to three — and the closing banner is keyed only
on whether failed == 0. -/
theorem c4_amended (e : Env) :
    (∀ c, c ∈ checkBattery → (c e).length ≤ 3) ∧
    (readyBanner e = true ↔ (runTally e).failed = 0) := by
  constructor
  · intro c hc
    simp only [checkBattery, List.mem_cons, List.not_mem_nil, or_false] at hc
    rcases hc with rfl | rfl | rfl | rfl | rfl | rfl | rfl | rfl | rfl | rfl |
      rfl | rfl | rfl | rfl | rfl | rfl | rfl | rfl | rfl | rfl | rfl | rfl |
      rfl | rfl | rfl | rfl | rfl <;>
      simp only [dockerInstalledCheck, daemonCheck, fileCheck, sslCheck,
        nginxValidCheck, proxyPassCheck, spaFallbackCheck, nodeModulesCheck,
        npmBuildCheck, dockerBuildCheck, headerCheck, sslProtocolsCheck,
        nonRootUserCheck, gzipCheck, http2Check, expiresCheck, minifyCheck,
        dnsCheck, portCheck] <;>
      (repeat' split) <;> simp
  · simp [readyBanner]

/-- Witness for C4 (amended) at `baseEnv` and the certificate check. -/
theorem c4_amended_witness :
    (sslCheck baseEnv).length ≤ 3 ∧
    (readyBanner baseEnv = true ↔ (runTally baseEnv).failed = 0) :=
  ⟨(c4_amended baseEnv).1 sslCheck sslCheck_mem_battery,
   (c4_amended baseEnv).2⟩

/-- Claim C5: with neither certificate directory present the check
emits exactly one Fail and the echoed remediation hint contains the
certbot command; with only the local fallback directory present and
both files in it, the check emits Pass and never consults the
openssl/expiry observation (the CA-path expiry extraction). -/
theorem c5_certificate_check (e : Env) :
    (e.caDir = false → e.localDir = false →
      sslCheck e = [⟨.fail, "No SSL certificates found"⟩] ∧
      sslHint e = some certbotHint ∧
      containsPat "certbot" certbotHint = true) ∧
    (e.caDir = false → e.localDir = true → e.localFullchain = true →
      e.localPrivkey = true →
      sslCheck e =
        [⟨.pass, "SSL certificates found in " ++ localCertPath ++ "/"⟩] ∧
      ∀ b s, sslCheck { e with opensslInstalled := b, expiry := s } =
        sslCheck e) := by
  constructor
  · intro h1 h2
    refine ⟨?_, ?_, by decide⟩
    · simp [sslCheck, h1, h2]
    · simp [sslHint, h1, h2]
  · intro h1 h2 h3 h4
    constructor
    · simp [sslCheck, h1, h2, h3, h4]
    · intro b s
      simp [sslCheck, h1, h2, h3, h4]

/-- Witness for C5 at `noCertsEnv` and `baseEnv`. -/
theorem c5_certificate_check_witness :
    (sslCheck noCertsEnv = [⟨.fail, "No SSL certificates found"⟩] ∧
      sslHint noCertsEnv = some certbotHint ∧
      containsPat "certbot" certbotHint = true) ∧
    (sslCheck baseEnv =
        [⟨.pass, "SSL certificates found in " ++ localCertPath ++ "/"⟩] ∧
      sslCheck { baseEnv with opensslInstalled := true, expiry := "soon" } =
        sslCheck baseEnv) :=
  ⟨(c5_certificate_check noCertsEnv).1 rfl rfl,
   ⟨((c5_certificate_check baseEnv).2 rfl rfl rfl rfl).1,
    ((c5_certificate_check baseEnv).2 rfl rfl rfl rfl).2 true "soon"⟩⟩

/-- Claim C6: a working directory holding exactly `Dockerfile` and
`package.json` out of the five required files yields exactly 2 Pass and
3 Fail in the required-file section. -/
theorem c6_required_files (e : Env)
    (h1 : e.fileExists "Dockerfile" = true)
    (h2 : e.fileExists "package.json" = true)
    (h3 : e.fileExists "nginx.conf" = false)
    (h4 : e.fileExists "vite.config.js" = false)
    (h5 : e.fileExists ".dockerignore" = false) :
    countTag .pass (filesSection e) = 2 ∧
    countTag .fail (filesSection e) = 3 := by
  constructor <;>
    simp [filesSection, requiredFiles, fileCheck, h1, h2, h3, h4, h5,
      countTag, List.filter_cons]

/-- Witness for C6 at `twoFilesEnv`. -/
theorem c6_required_files_witness :
    countTag .pass (filesSection twoFilesEnv) = 2 ∧
    countTag .fail (filesSection twoFilesEnv) = 3 :=
  c6_required_files twoFilesEnv (by decide) (by decide) (by decide)
    (by decide) (by decide)

/-- Claim C7: an nginx config containing the SPA fallback line yields
Pass for the SPA heuristic; one containing the proxy_pass directive
yields the proxy Warn; one without the fallback directive (the grep
pattern `try_files.*index.html` matching no line) yields Warn for the
SPA heuristic. -/
theorem c7_nginx_heuristics (e : Env) :
    ("try_files $uri $uri/ /index.html;" ∈ e.nginxConf →
      spaFallbackCheck e = [⟨.pass, "SPA fallback routing configured"⟩]) ∧
    ("proxy_pass http://frontend:3000;" ∈ e.nginxConf →
      proxyPassCheck e =
        [⟨.warn, "nginx.conf contains proxy_pass (should serve static files)"⟩]) ∧
    (grepTwo "try_files" "index.html" e.nginxConf = false →
      spaFallbackCheck e =
        [⟨.warn, "SPA fallback routing may not be configured"⟩]) := by
  refine ⟨?_, ?_, ?_⟩
  · intro hm
    have hg : grepTwo "try_files" "index.html" e.nginxConf = true :=
      List.any_eq_true.mpr ⟨_, hm, by decide⟩
    simp [spaFallbackCheck, hg]
  · intro hm
    have hg : grepQ "proxy_pass" e.nginxConf = true :=
      List.any_eq_true.mpr ⟨_, hm, by decide⟩
    simp [proxyPassCheck, hg]
  · intro hg
    simp [spaFallbackCheck, hg]

/-- Witness for C7 at `spaConfEnv` and `baseEnv`. -/
theorem c7_nginx_heuristics_witness :
    spaFallbackCheck spaConfEnv =
      [⟨.pass, "SPA fallback routing configured"⟩] ∧
    proxyPassCheck spaConfEnv =
      [⟨.warn, "nginx.conf contains proxy_pass (should serve static files)"⟩] ∧
    spaFallbackCheck baseEnv =
      [⟨.warn, "SPA fallback routing may not be configured"⟩] :=
  ⟨(c7_nginx_heuristics spaConfEnv).1 (by decide),
   (c7_nginx_heuristics spaConfEnv).2.1 (by decide),
   (c7_nginx_heuristics baseEnv).2.2 rfl⟩

/-- Claim C8: two runs observing the same environment except for the
timestamp-dependent certificate-expiry string (present in both runs or
absent in both) produce identical tallies, and the expiry line a run
prints reports that run's observed value, not a cached one. -/
theorem c8_idempotent_tally (e : Env) (s : String)
    (hx : (s == "") = (e.expiry == "")) :
    runTally { e with expiry := s } = runTally e ∧
    (e.caDir = true → e.caFullchain = true → e.caPrivkey = true →
      e.opensslInstalled = true → (e.expiry == "") = false →
      Result.mk .pass ("Certificate expires: " ++ e.expiry) ∈ runResults e) := by
  constructor
  · apply tallyOf_eq_of_tags
    simp only [runResults, checkBattery, List.flatMap_cons, List.flatMap_nil,
      List.append_nil, List.map_append]
    rw [sslCheck_tags_expiry e s hx]
    rfl
  · intro h1 h2 h3 h4 h5
    have hmem : Result.mk .pass ("Certificate expires: " ++ e.expiry) ∈
        sslCheck e := by
      simp [sslCheck, h1, h2, h3, h4, h5]
    exact List.mem_flatMap.mpr ⟨sslCheck, sslCheck_mem_battery, hmem⟩

/-- Witness for C8 at `caExpiryEnv` with a different observed expiry. -/
theorem c8_idempotent_tally_witness :
    runTally { caExpiryEnv with expiry := "Feb 22 09:00:00 2028 GMT" } =
      runTally caExpiryEnv ∧
    Result.mk .pass ("Certificate expires: " ++ caExpiryEnv.expiry) ∈
      runResults caExpiryEnv :=
  ⟨(c8_idempotent_tally caExpiryEnv "Feb 22 09:00:00 2028 GMT" (by decide)).1,
   (c8_idempotent_tally caExpiryEnv "Feb 22 09:00:00 2028 GMT" (by decide)).2
     rfl rfl rfl rfl (by decide)⟩

/-- Claim C9 as stated is false: when the image deletion itself fails
(`docker rmi ... || true` swallows the error) the throwaway test image
is still present after the container-build check. -/
theorem c9_counterexample : imageAfterRun rmiFailEnv = true := by decide

/-- Claim C9 (amended): the deletion of the throwaway image is
attempted exactly when the build succeeded, and when that deletion
succeeds the image is no longer present after the check; the deletion's
outcome is not a reported check — the emitted results, hence the
RunTally, are unchanged whatever the rmi outcome. -/
theorem c9_cleanup (e : Env) :
    (e.dockerBuildOk = true → e.rmiOk = true → imageAfterRun e = false) ∧
    (∀ b, runResults { e with rmiOk := b } = runResults e) ∧
    (∀ b, runTally { e with rmiOk := b } = runTally e) := by
  refine ⟨?_, ?_, ?_⟩
  · intro h1 h2
    simp [imageAfterRun, h1, h2]
  · intro b
    rfl
  · intro b
    rfl

/-- Witness for C9 (amended) at `baseEnv`. -/
theorem c9_cleanup_witness :
    imageAfterRun baseEnv = false ∧
    runResults { baseEnv with rmiOk := false } = runResults baseEnv :=
  ⟨(c9_cleanup baseEnv).1 rfl rfl, (c9_cleanup baseEnv).2.1 false⟩

/-- Claim C10: when the CA-managed directory exists the local fallback
is never consulted — the check's outcome is unchanged under any state
of the local directory — and with a CA file missing the check is a Fail
even if the local fallback holds both files. -/
theorem c10_ca_precedence (e : Env) (h : e.caDir = true) :
    (∀ b1 b2 b3, sslCheck { e with localDir := b1, localFullchain := b2, localPrivkey := b3 } = sslCheck e) ∧
    ((e.caFullchain && e.caPrivkey) = false →
      sslCheck e =
        [⟨.fail, "SSL certificate files missing in " ++ certPath⟩]) := by
  constructor
  · intro b1 b2 b3
    simp [sslCheck, h]
  · intro h2
    simp [sslCheck, h, h2]

/-- Witness for C10 at `caMissingKeyEnv` (CA dir present, key absent,
local fallback complete). -/
theorem c10_ca_precedence_witness :
    sslCheck { caMissingKeyEnv with localDir := false, localFullchain := false, localPrivkey := false } = sslCheck caMissingKeyEnv ∧
    sslCheck caMissingKeyEnv =
      [⟨.fail, "SSL certificate files missing in " ++ certPath⟩] :=
  ⟨(c10_ca_precedence caMissingKeyEnv rfl).1 false false false,
   (c10_ca_precedence caMissingKeyEnv rfl).2 rfl⟩

end ReadyCheck
